import Mathlib

/-!
Verification of the slomo_camera processing script (src/main.py).

The script is shallowly embedded: filesystem state is passed explicitly
(directory listings as lists of names, mount reachability as a boolean
predicate), Python exceptions become an `Except PyError` result, Python
integers become `Int`/`Nat`, and Python float arithmetic is modelled by
exact rational arithmetic over `ℚ`.  Definitions come first, theorems after.
-/

/-- Exceptions that the embedded code can raise.  `emptyLogError` is
Modelled from the spec: the spec's error taxonomy (§7) names `EmptyLogError`
as the error that statistics over an empty delta list must raise; no such
error exists anywhere in src/main.py. -/
inductive PyError where
  | zeroDivisionError
  | nameError (name : String)
  | isADirectoryError
  | windowsError (msg : String)
  | emptyLogError
  deriving DecidableEq, Repr

/-- One row of tstamps.csv as consumed by `write_durations`:
`row[1]` is the frame sequence index, `row[2]` the capture-clock reading in
microseconds (`current_microsecond = int(row[2])` in the source). -/
structure Row where
  seqIndex : Nat
  captureMicros : Int
  deriving DecidableEq, Repr

/-- The data one loop iteration of `write_durations` produces for a
non-first csv row: the frame index written into the file line, the delta
`dt = current_microsecond - last_microsecond`, and the seconds value
`slowdown * dt / 1000000` written into the duration line. -/
structure DurationRecord where
  frameIndex : Nat
  deltaMicros : Int
  displaySeconds : ℚ
  deriving DecidableEq, Repr

/-- The record built at one iteration of the `write_durations` loop from the
previous timestamp `prev` and the current row `r`. -/
def mkRecord (slowdown : ℚ) (prev : Int) (r : Row) : DurationRecord :=
  { frameIndex := r.seqIndex
    deltaMicros := r.captureMicros - prev
    displaySeconds := slowdown * ((r.captureMicros : ℚ) - (prev : ℚ)) / 1000000 }

/-- The `line_count > 0` iterations of the `write_durations` loop:
`prev` is `last_microsecond`, updated to the current row's timestamp after
each iteration. -/
def durationLoop (slowdown : ℚ) (prev : Int) (rows : List Row) : List DurationRecord :=
  match rows with
  | [] => []
  | r :: rest => mkRecord slowdown prev r :: durationLoop slowdown r.captureMicros rest

/-- `write_durations` (src/main.py:103-121), record view: row 0 only seeds
`last_microsecond`; each later row yields one record. -/
def write_durations_records (log : List Row) (slowdown : ℚ) : List DurationRecord :=
  match log with
  | [] => []
  | r0 :: rest => durationLoop slowdown r0.captureMicros rest

/-- The `dts` list accumulated by `write_durations`. -/
def dtsLoop (prev : Int) (rows : List Row) : List Int :=
  match rows with
  | [] => []
  | r :: rest => (r.captureMicros - prev) :: dtsLoop r.captureMicros rest

/-- The `dts` list `write_durations` hands to `print_stats`. -/
def write_durations_dts (log : List Row) : List Int :=
  match log with
  | [] => []
  | r0 :: rest => dtsLoop r0.captureMicros rest

/-- The statistics `print_stats` (src/main.py:124-131) computes and prints. -/
structure SessionStats where
  avgDt : ℚ
  avgFps : ℚ
  outputFps : ℚ
  frames : Nat
  videoLength : ℚ
  deriving DecidableEq, Repr

/-- `print_stats` (src/main.py:124-131).  `avg_dt = (sum(dts)/len(dts))/1000000`
divides by `len(dts)` with no guard, so an empty `dts` raises
ZeroDivisionError; the later prints divide by `avg_dt` and `slowx`, so those
being zero also raises ZeroDivisionError.  No `EmptyLogError` exists in the
source. -/
def print_stats (dts : List Int) (slowx : ℚ) (line_count : Nat) :
    Except PyError SessionStats :=
  if dts.length = 0 then .error .zeroDivisionError
  else
    let avg_dt : ℚ := (((dts.sum : ℚ)) / (dts.length : ℚ)) / 1000000
    if avg_dt = 0 then .error .zeroDivisionError
    else if slowx = 0 then .error .zeroDivisionError
    else .ok { avgDt := avg_dt
               avgFps := 1 / avg_dt
               outputFps := (1 / avg_dt) / slowx
               frames := line_count
               videoLength := (line_count : ℚ) * avg_dt * slowx }

/-- The observable result of a full `write_durations` call: the final
`print_stats(dts, slowdown, line_count)`.  On a zero-row csv the loop body
never runs, so the loop variable `line_count` is unbound when line 121 reads
it — a NameError.  On an `N+1`-row csv, `line_count` ends at `N`. -/
def write_durations_run (log : List Row) (slowdown : ℚ) : Except PyError SessionStats :=
  match log with
  | [] => .error (.nameError "line_count")
  | r0 :: rest => print_stats (write_durations_dts (r0 :: rest)) slowdown rest.length

/-- `test_drive` (src/main.py:15-29).  The filesystem is abstracted as the
boolean predicate `ex` standing for `os.path.exists`; the source probes the
three mount roots in the written order and raises
`WindowsError("No shared drive found!")` when every probe fails. -/
def test_drive (ex : String → Bool) : Except PyError String :=
  if ex "W://" then .ok "W"
  else if ex "Y://" then .ok "Y"
  else if ex "X://" then .ok "X"
  else .error (.windowsError "No shared drive found!")

/-- `round` as Python defines it for floats: round half to even.  Modelled
over `ℚ` (Python rounds the binary float `input_fps / slowdown`). -/
def pyRound (q : ℚ) : Int :=
  let f := ⌊q⌋
  let r := q - (f : ℚ)
  if r < 1 / 2 then f
  else if 1 / 2 < r then f + 1
  else if f % 2 = 0 then f else f + 1

/-- The `-r` frame rate `create_video` (src/main.py:134-149) passes to
ffmpeg: `outfps = round(input_fps / slowdown)` capped by
`outfps if outfps < min_fps else min_fps` with `min_fps = 25`. -/
def create_video_outfps (input_fps slowdown : ℚ) : Int :=
  let min_fps : Int := 25
  let outfps := pyRound (input_fps / slowdown)
  if outfps < min_fps then outfps else min_fps

/-- A directory entry as returned by `os.listdir`: its name and whether it
is itself a directory (os.listdir lists both). -/
structure Entry where
  name : String
  isDirectory : Bool
  deriving DecidableEq, Repr

/-- `os.remove(os.path.join(temp_path, f))` applied to each listed entry in
order: `os.remove` deletes a plain file but raises on a directory entry. -/
def removeEntries (entries : List Entry) : Except PyError Unit :=
  match entries with
  | [] => .ok ()
  | e :: rest => if e.isDirectory then .error .isADirectoryError else removeEntries rest

/-- The clearing step of `ProcessingWorker.watch_and_clear`
(src/main.py:63-67), acting on the state of the temp path: `none` means the
path does not exist (so `os.makedirs` creates it, yielding an empty
directory); `some entries` means it exists (so `os.makedirs` raises, and the
handler removes every listed entry with `os.remove`, preserving the
directory itself). -/
def watch_and_clear (st : Option (List Entry)) : Except PyError (Option (List Entry)) :=
  match st with
  | none => .ok (some [])
  | some entries =>
      match removeEntries entries with
      | .ok _ => .ok (some [])
      | .error e => .error e

/-- Python's `str.endswith(suffix)`: `suffix` is a suffix of the string.
(Defined over the character list; core's byte-position `String.endsWith`
does not reduce in the kernel.) -/
def pyEndsWith (s suffix : String) : Bool :=
  suffix.data.isSuffixOf s.data

/-- State accumulated by the copy/convert loop of `move_and_convert_to_tiff`:
files copied into the temp folder, tiff images written by `imageio.imsave`,
and whether the loop ever bound the local variable `raw`
(`raw = rawpy.imread(newpath)` runs only for `.all` files). -/
structure ConvertState where
  copied : List String
  tiffs : List String
  rawBound : Bool
  deriving DecidableEq, Repr

/-- The `for idx, filename in enumerate(file_list)` loop of
`move_and_convert_to_tiff` (src/main.py:78-86).  `newpath` is the raw
f-string `rf"{temp_folder}\\{filename}"`, whose `\\` is two literal
backslashes, and the tiff name is `newpath[:-8] + ".tiff"`. -/
def convertLoop (temp_folder : String) (files : List String) (st : ConvertState) :
    ConvertState :=
  match files with
  | [] => st
  | f :: rest =>
      if pyEndsWith f ".all" || pyEndsWith f ".csv" then
        let st1 : ConvertState := { st with copied := st.copied ++ [f] }
        if pyEndsWith f ".all" then
          let newpath := temp_folder ++ "\\\\" ++ f
          convertLoop temp_folder rest
            { st1 with tiffs := st1.tiffs ++ [newpath.dropRight 8 ++ ".tiff"]
                       rawBound := true }
        else convertLoop temp_folder rest st1
      else convertLoop temp_folder rest st

/-- `move_and_convert_to_tiff` (src/main.py:69-89): after the loop,
line 87 executes `raw.close()`; if the loop never assigned `raw` (no `.all`
file in the listing), Python raises a NameError (UnboundLocalError) on the
unbound name `raw`. -/
def move_and_convert_to_tiff (temp_folder : String) (file_list : List String) :
    Except PyError ConvertState :=
  let final := convertLoop temp_folder file_list { copied := [], tiffs := [], rawBound := false }
  if final.rawBound then .ok final else .error (.nameError "raw")

/-- CPython `is not` applied to a listed file name and the freshly formatted
f-string `f"{self.outname}.mp4"`: the f-string allocates a new string object
at each loop iteration, so it is never the same object as `f` and the
identity test is true for every file — equality of the text is never
consulted. -/
def py_is_not_fresh (_f _target : String) : Bool :=
  true

/-- The deletion list `tidy_up` builds over the shared folder
(src/main.py:96): `[f for f in os.listdir(...) if f is not f"{self.outname}.mp4"]`;
every listed file ends up scheduled for `os.remove`. -/
def tidy_up_filelist (listing : List String) (outname : String) : List String :=
  listing.filter fun f => py_is_not_fresh f (outname ++ ".mp4")

/-- Decimal digit characters of `n`, most significant first, with explicit
fuel so the definition is structural.  Fuel `n + 1` always suffices. -/
def decDigits (fuel n : Nat) : List Char :=
  match fuel with
  | 0 => []
  | fuel + 1 =>
      if n < 10 then [Nat.digitChar n]
      else decDigits fuel (n / 10) ++ [Nat.digitChar (n % 10)]

/-- Plain decimal rendering of `n` (Python `str(n)` / `"%d" % n`). -/
def decRepr (n : Nat) : String :=
  String.mk (decDigits (n + 1) n)

/-- Python's `format(n, "06d")` as used in `f"...{int(row[1]):06d}..."`: the
decimal digits of `n`, left-padded with zeros to a minimum width of 6. -/
def format06 (n : Nat) : String :=
  let ds := decDigits (n + 1) n
  String.mk (List.replicate (6 - ds.length) '0' ++ ds)

/-- Python's fixed-point formatting `f"{x:08f}"` as `write_durations` applies
it to the duration value: six digits after the decimal point (the value is
rounded half-to-even at the sixth decimal), and a minimum field width of 8 —
which never pads, since `0.000000` is already eight characters.  Modelled
over `ℚ`. -/
def pyFormat08f (x : ℚ) : String :=
  let n := pyRound (x * 1000000)
  let m := n.natAbs
  (if n < 0 then "-" else "") ++ decRepr (m / 1000000) ++ "." ++ format06 (m % 1000000)

/-- The file-reference line `write_durations` writes for a row
(src/main.py:115): the raw f-string
`fr"file '{temp_folder}\out.{int(row[1]):06d}.tiff'"`. -/
def fileLine (temp_folder : String) (seqIndex : Nat) : String :=
  "file '" ++ temp_folder ++ "\\out." ++ format06 seqIndex ++ ".tiff'"

/-- The duration line `write_durations` writes for a row (src/main.py:117):
`f"duration {slowdown * dt / 1000000:08f}"`. -/
def durationLine (slowdown : ℚ) (dt : Int) : String :=
  "duration " ++ pyFormat08f (slowdown * (dt : ℚ) / 1000000)

/-- The manifest lines written by the `line_count > 0` iterations of the
`write_durations` loop, in order: a file line then a duration line per row. -/
def manifestLoop (temp_folder : String) (slowdown : ℚ) (prev : Int) (rows : List Row) :
    List String :=
  match rows with
  | [] => []
  | r :: rest =>
      fileLine temp_folder r.seqIndex ::
      durationLine slowdown (r.captureMicros - prev) ::
      manifestLoop temp_folder slowdown r.captureMicros rest

/-- The full contents of ffmpeg_concats.txt as a list of lines: row 0 writes
nothing, each later row appends its two lines. -/
def write_durations_lines (temp_folder : String) (log : List Row) (slowdown : ℚ) :
    List String :=
  match log with
  | [] => []
  | r0 :: rest => manifestLoop temp_folder slowdown r0.captureMicros rest

theorem durationLoop_length (slowdown : ℚ) (prev : Int) (rows : List Row) :
    (durationLoop slowdown prev rows).length = rows.length := by
  induction rows generalizing prev with
  | nil => rfl
  | cons r rest ih => simp [durationLoop, ih]

theorem durationLoop_getElem? (slowdown : ℚ) (prev : Int) (rows : List Row) (i : Nat) :
    (durationLoop slowdown prev rows)[i]? =
      (rows[i]?).bind fun r =>
        ((prev :: rows.map Row.captureMicros)[i]?).map fun p => mkRecord slowdown p r := by
  induction rows generalizing prev i with
  | nil => simp [durationLoop]
  | cons r rest ih =>
    cases i with
    | zero => simp [durationLoop]
    | succ j => simpa [durationLoop] using ih r.captureMicros j

/-- Closed form for the record at index `i`: it is built from row `i+1` of the
log (`rest.get i`) and the timestamp of its immediate predecessor
(`(r0 :: rest).get i`). -/
theorem write_durations_records_getElem? (slowdown : ℚ) (r0 : Row) (rest : List Row)
    (i : Nat) (h : i < rest.length) :
    (write_durations_records (r0 :: rest) slowdown)[i]? =
      some (mkRecord slowdown
        (((r0 :: rest).get ⟨i, by simp only [List.length_cons]; omega⟩).captureMicros)
        (rest.get ⟨i, h⟩)) := by
  have hrw : write_durations_records (r0 :: rest) slowdown =
      durationLoop slowdown r0.captureMicros rest := rfl
  rw [hrw, durationLoop_getElem?]
  have h1 : rest[i]? = some (rest.get ⟨i, h⟩) := by
    simp [List.getElem?_eq_getElem h]
  have hmap : (r0.captureMicros :: rest.map Row.captureMicros) =
      (r0 :: rest).map Row.captureMicros := rfl
  have h2 : (r0.captureMicros :: rest.map Row.captureMicros)[i]? =
      some (((r0 :: rest).get ⟨i, by simp only [List.length_cons]; omega⟩).captureMicros) := by
    rw [hmap, List.getElem?_map,
      List.getElem?_eq_getElem (show i < (r0 :: rest).length by simp only [List.length_cons]; omega)]
    simp
  rw [h1, h2]
  rfl

/-- C1: for a log of `N+1` rows (baseline plus `N` data rows) and a fixed
slowdown factor, `write_durations` emits exactly `N` records, one per
non-first row; record `i` carries `deltaMicros` equal to row `i+1`'s
`captureMicros` minus row `i`'s (consecutive first-order differences), and
`displaySeconds = slowdown * deltaMicros / 1000000`. -/
theorem write_durations_consecutive_deltas (r0 : Row) (rest : List Row) (slowdown : ℚ) :
    (write_durations_records (r0 :: rest) slowdown).length = rest.length ∧
    ∀ i : Nat, (h : i < rest.length) →
      (write_durations_records (r0 :: rest) slowdown)[i]? =
        some { frameIndex := (rest.get ⟨i, h⟩).seqIndex
               deltaMicros := (rest.get ⟨i, h⟩).captureMicros -
                 ((r0 :: rest).get ⟨i, by simp only [List.length_cons]; omega⟩).captureMicros
               displaySeconds := slowdown *
                 (((rest.get ⟨i, h⟩).captureMicros : ℚ) -
                   (((r0 :: rest).get ⟨i, by simp only [List.length_cons]; omega⟩).captureMicros : ℚ)) /
                 1000000 } := by
  constructor
  · show (durationLoop slowdown r0.captureMicros rest).length = rest.length
    exact durationLoop_length slowdown r0.captureMicros rest
  · intro i h
    rw [write_durations_records_getElem? slowdown r0 rest i h]
    rfl

/-- Witness for C1 at the concrete log `[(7,100), (8,350)]`, slowdown 30. -/
theorem write_durations_consecutive_deltas_witness :
    (write_durations_records [Row.mk 7 100, Row.mk 8 350] 30).length = 1 ∧
    (write_durations_records [Row.mk 7 100, Row.mk 8 350] 30)[0]? =
      some { frameIndex := 8, deltaMicros := 250,
             displaySeconds := 30 * ((350 : ℚ) - 100) / 1000000 } := by
  have h := write_durations_consecutive_deltas (Row.mk 7 100) [Row.mk 8 350] 30
  exact ⟨h.1, by simpa using h.2 0 (by decide)⟩

/-- C4: when a row's `captureMicros` is less than or equal to its
predecessor's, `write_durations` still emits a record for it — the zero or
negative delta is neither rejected nor clamped: it appears unchanged in
`deltaMicros` and flows into `displaySeconds = slowdown * deltaMicros / 1000000`. -/
theorem write_durations_propagates_nonpositive_deltas (r0 : Row) (rest : List Row)
    (slowdown : ℚ) (i : Nat) (h : i < rest.length)
    (hmono : (rest.get ⟨i, h⟩).captureMicros ≤
      ((r0 :: rest).get ⟨i, by simp only [List.length_cons]; omega⟩).captureMicros) :
    ∃ rec : DurationRecord,
      (write_durations_records (r0 :: rest) slowdown)[i]? = some rec ∧
      rec.deltaMicros = (rest.get ⟨i, h⟩).captureMicros -
        ((r0 :: rest).get ⟨i, by simp only [List.length_cons]; omega⟩).captureMicros ∧
      rec.deltaMicros ≤ 0 ∧
      rec.displaySeconds = slowdown * (rec.deltaMicros : ℚ) / 1000000 := by
  refine ⟨_, write_durations_records_getElem? slowdown r0 rest i h, rfl, ?_, ?_⟩
  · exact sub_nonpos.mpr hmono
  · simp only [mkRecord]
    push_cast
    ring

/-- Witness for C4: log `[(0,500), (1,200)]` (timestamp goes backwards),
slowdown 30; the record carries delta `-300`. -/
theorem write_durations_propagates_nonpositive_deltas_witness :
    ∃ rec : DurationRecord,
      (write_durations_records [Row.mk 0 500, Row.mk 1 200] 30)[0]? = some rec ∧
      rec.deltaMicros = (200 : ℤ) - 500 ∧
      rec.deltaMicros ≤ 0 ∧
      rec.displaySeconds = 30 * (rec.deltaMicros : ℚ) / 1000000 := by
  have h := write_durations_propagates_nonpositive_deltas (Row.mk 0 500) [Row.mk 1 200] 30 0
    (by decide) (by decide)
  simpa using h

/-- C3 (code bug): a one-row log yields zero duration records, but requesting
statistics then crashes with ZeroDivisionError (`sum(dts)/len(dts)` with
`len(dts) = 0`) — not the spec's explicit `EmptyLogError`; a zero-row log
crashes even earlier, with a NameError on the unbound `line_count`. -/
theorem print_stats_empty_log_crashes (r : Row) (slowdown : ℚ) :
    write_durations_records [r] slowdown = [] ∧
    write_durations_run [r] slowdown = .error PyError.zeroDivisionError ∧
    write_durations_run [r] slowdown ≠ .error PyError.emptyLogError ∧
    write_durations_run [] slowdown = .error (PyError.nameError "line_count") := by
  refine ⟨rfl, rfl, ?_, rfl⟩
  intro hcontra
  exact PyError.noConfusion (Except.error.inj hcontra)

/-- C5: `test_drive` checks the candidates in the fixed priority order W,
then Y, then X, returning the first reachable one — in particular a
reachable W wins outright, Y is returned only when W is unreachable, X only
when both W and Y are unreachable — and when none is reachable it fails with
the no-source error instead of returning a drive. -/
theorem test_drive_priority_order (ex : String → Bool) :
    (ex "W://" = true → test_drive ex = .ok "W") ∧
    (ex "W://" = false → ex "Y://" = true → test_drive ex = .ok "Y") ∧
    (ex "W://" = false → ex "Y://" = false → ex "X://" = true →
      test_drive ex = .ok "X") ∧
    (ex "W://" = false → ex "Y://" = false → ex "X://" = false →
      test_drive ex = .error (.windowsError "No shared drive found!")) := by
  refine ⟨fun hw => ?_, fun hw hy => ?_, fun hw hy hx => ?_, fun hw hy hx => ?_⟩ <;>
    simp [test_drive, hw]
  all_goals simp [hy]
  all_goals simp [hx]

/-- Witness for C5: a filesystem where only `X://` exists; `test_drive`
returns X. -/
theorem test_drive_priority_order_witness :
    test_drive (fun s => s == "X://") = .ok "X" :=
  (test_drive_priority_order (fun s => s == "X://")).2.2.1 (by decide) (by decide) (by decide)

/-- C8: for positive nominal input fps and slowdown factor, the frame rate
handed to ffmpeg equals `min(round(input_fps / slowdown), 25)` — the rounded
quotient capped at the fixed ceiling 25. -/
theorem create_video_outfps_min_cap (input_fps slowdown : ℚ)
    (hfps : 0 < input_fps) (hslow : 0 < slowdown) :
    create_video_outfps input_fps slowdown = min (pyRound (input_fps / slowdown)) 25 := by
  unfold create_video_outfps
  rcases lt_or_ge (pyRound (input_fps / slowdown)) 25 with hlt | hge
  · simp [hlt, min_eq_left hlt.le]
  · simp [not_lt.mpr hge, min_eq_right hge]

/-- Witness for C8 at the script's own configuration `fps = 440`,
`slowx = 30`: the encoder fps is `min(round(44/3), 25) = 15`. -/
theorem create_video_outfps_min_cap_witness :
    create_video_outfps 440 30 = min (pyRound (440 / 30)) 25 ∧
    create_video_outfps 440 30 = 15 :=
  ⟨create_video_outfps_min_cap 440 30 (by norm_num) (by norm_num),
   by norm_num [create_video_outfps, pyRound]⟩

/-- C9: on a path that is absent or is a directory holding only plain files,
the clearing step yields an empty directory, and running it again on the
result yields an empty directory again — it is idempotent, creating the
directory when absent and otherwise emptying it while preserving it. -/
theorem watch_and_clear_idempotent (st : Option (List Entry))
    (hfiles : ∀ es, st = some es → ∀ e ∈ es, e.isDirectory = false) :
    watch_and_clear st = .ok (some []) ∧
    watch_and_clear (some []) = .ok (some []) := by
  refine ⟨?_, rfl⟩
  match st with
  | none => rfl
  | some es =>
    have hok : removeEntries es = .ok () := by
      induction es with
      | nil => rfl
      | cons e rest ih =>
        have he : e.isDirectory = false := hfiles (e :: rest) rfl e (by simp)
        have hrest : ∀ es, some rest = some es → ∀ x ∈ es, x.isDirectory = false := by
          intro es hes x hx
          cases hes
          exact hfiles (e :: rest) rfl x (by simp [hx])
        simpa [removeEntries, he] using ih hrest
    simp [watch_and_clear, hok]

/-- Witness for C9: a pre-existing temp directory holding two plain files is
emptied, and clearing again keeps it empty. -/
theorem watch_and_clear_idempotent_witness :
    watch_and_clear (some [Entry.mk "tstamps.csv" false, Entry.mk "out.000001.all" false]) =
      .ok (some []) ∧
    watch_and_clear (some []) = .ok (some []) :=
  watch_and_clear_idempotent
    (some [Entry.mk "tstamps.csv" false, Entry.mk "out.000001.all" false])
    (by intro es hes e he; cases hes; fin_cases he <;> rfl)

/-- C10 (implicit): when the pre-existing temp directory contains a
subdirectory, the clearing step applies `os.remove` to every listed entry —
directory entries included — so it fails with the directory-removal error
instead of yielding an empty directory. -/
theorem watch_and_clear_subdirectory_fails (es : List Entry) (e : Entry)
    (hmem : e ∈ es) (hdir : e.isDirectory = true) :
    watch_and_clear (some es) = .error PyError.isADirectoryError := by
  have herr : removeEntries es = .error .isADirectoryError := by
    induction es with
    | nil => cases hmem
    | cons x rest ih =>
      rcases List.mem_cons.mp hmem with hx | hx
      · subst hx
        simp [removeEntries, hdir]
      · by_cases hxd : x.isDirectory
        · simp [removeEntries, hxd]
        · simpa [removeEntries, hxd] using ih hx
  simp [watch_and_clear, herr]

/-- Witness for C10: a temp directory containing the subdirectory `frames`
makes the clearing step fail. -/
theorem watch_and_clear_subdirectory_fails_witness :
    watch_and_clear (some [Entry.mk "tstamps.csv" false, Entry.mk "frames" true]) =
      .error PyError.isADirectoryError :=
  watch_and_clear_subdirectory_fails
    [Entry.mk "tstamps.csv" false, Entry.mk "frames" true]
    (Entry.mk "frames" true) (by decide) rfl

/-- C6 (code bug): on a source listing with zero `.all` files the claim wants
staging to skip decoding and finish cleanly, but `raw.close()` on line 87
dereferences the never-assigned `raw` and crashes with a NameError.  Shown at
the listing `["tstamps.csv"]`, which indeed contains no `.all` file and whose
csv is still copied. -/
theorem move_and_convert_zero_raw_crashes :
    (["tstamps.csv"].filter fun f => pyEndsWith f ".all") = [] ∧
    move_and_convert_to_tiff "C:\\temp" ["tstamps.csv"] = .error (.nameError "raw") ∧
    (convertLoop "C:\\temp" ["tstamps.csv"]
      { copied := [], tiffs := [], rawBound := false }).copied = ["tstamps.csv"] := by
  refine ⟨by decide, by rfl, by decide⟩

/-- C7 (code bug): the source-drain loop deletes every file at the source
root — the `is not` identity test never matches, so even a file named
exactly like the output video (here `test_01.mp4`, the configured
`outname`) is kept in the deletion list rather than excluded. -/
theorem tidy_up_deletes_output_named_file (listing : List String) (outname : String) :
    tidy_up_filelist listing outname = listing ∧
    tidy_up_filelist ["test_01.mp4", "out.000001.all"] "test_01.mp4" =
      ["test_01.mp4", "out.000001.all"] ∧
    "test_01.mp4" ∈ tidy_up_filelist ["test_01.mp4", "out.000001.all"] "test_01.mp4" := by
  refine ⟨?_, rfl, by simp [tidy_up_filelist, py_is_not_fresh]⟩
  simp [tidy_up_filelist, py_is_not_fresh]

theorem decDigits_length_le (fuel n k : Nat) (hk : 0 < k) (hn : n < 10 ^ k) :
    (decDigits fuel n).length ≤ k := by
  induction fuel generalizing n k with
  | zero => simpa [decDigits] using Nat.zero_le k
  | succ fuel ih =>
    by_cases h10 : n < 10
    · simpa [decDigits, h10] using hk
    · have hk2 : 2 ≤ k := by
        by_contra hcon
        have hk1 : k = 1 := by omega
        rw [hk1, pow_one] at hn
        exact h10 hn
      have hpow : (10 : Nat) ^ k = 10 ^ (k - 1) * 10 := by
        rw [← pow_succ]
        congr 1
        omega
      have hdiv : n / 10 < 10 ^ (k - 1) := by
        rw [Nat.div_lt_iff_lt_mul (by norm_num)]
        omega
      have hrec := ih (n / 10) (k - 1) (by omega) hdiv
      simp only [decDigits, if_neg h10, List.length_append, List.length_singleton]
      omega

/-- A sequence index below `10 ^ 6` renders as exactly six digits. -/
theorem format06_length (n : Nat) (hn : n < 1000000) :
    (format06 n).length = 6 := by
  have hpow : (10 : Nat) ^ 6 = 1000000 := by norm_num
  have hle : (decDigits (n + 1) n).length ≤ 6 :=
    decDigits_length_le (n + 1) n 6 (by norm_num) (by rw [hpow]; exact hn)
  show (String.mk (List.replicate (6 - (decDigits (n + 1) n).length) '0' ++
    decDigits (n + 1) n)).length = 6
  simp only [String.length, List.length_append, List.length_replicate]
  omega

theorem manifestLoop_length (tf : String) (s : ℚ) (prev : Int) (rows : List Row) :
    (manifestLoop tf s prev rows).length = 2 * rows.length := by
  induction rows generalizing prev with
  | nil => rfl
  | cons r rest ih =>
    simp only [manifestLoop, List.length_cons, ih]
    omega

theorem manifestLoop_getElem?_even (tf : String) (s : ℚ) (prev : Int) (rows : List Row)
    (i : Nat) :
    (manifestLoop tf s prev rows)[2 * i]? =
      (rows[i]?).map fun r => fileLine tf r.seqIndex := by
  induction rows generalizing prev i with
  | nil => simp [manifestLoop]
  | cons r rest ih =>
    cases i with
    | zero => simp [manifestLoop]
    | succ j =>
      have h2 : 2 * (j + 1) = 2 * j + 1 + 1 := by ring
      rw [h2]
      simpa [manifestLoop] using ih r.captureMicros j

theorem manifestLoop_getElem?_odd (tf : String) (s : ℚ) (prev : Int) (rows : List Row)
    (i : Nat) :
    (manifestLoop tf s prev rows)[2 * i + 1]? =
      (rows[i]?).bind fun r =>
        ((prev :: rows.map Row.captureMicros)[i]?).map fun p =>
          durationLine s (r.captureMicros - p) := by
  induction rows generalizing prev i with
  | nil => simp [manifestLoop]
  | cons r rest ih =>
    cases i with
    | zero => simp [manifestLoop]
    | succ j =>
      have h2 : 2 * (j + 1) + 1 = 2 * j + 1 + 1 + 1 := by ring
      rw [h2]
      simpa [manifestLoop] using ih r.captureMicros j

/-- The predecessor-timestamp list `prev :: rows.map captureMicros` read at
index `i`, phrased over the full log `r0 :: rest`. -/
theorem prevMicros_getElem? (r0 : Row) (rest : List Row) (i : Nat) (h : i < rest.length) :
    (r0.captureMicros :: rest.map Row.captureMicros)[i]? =
      some (((r0 :: rest).get ⟨i, by simp only [List.length_cons]; omega⟩).captureMicros) := by
  have hmap : (r0.captureMicros :: rest.map Row.captureMicros) =
      (r0 :: rest).map Row.captureMicros := rfl
  rw [hmap, List.getElem?_map,
    List.getElem?_eq_getElem (show i < (r0 :: rest).length by simp only [List.length_cons]; omega)]
  simp

/-- C2: for a log with `N` data rows after the baseline, the manifest has
exactly `2 * N` lines, strictly alternating: every even position `2i` holds
the file line naming the staged image by row `i+1`'s sequence index
zero-padded to six digits (`out.NNNNNN.tiff`, exactly six digits whenever
the index is below `10^6`), and every odd position `2i+1` holds the duration
line for the same row, in original log-row order — so no file line is ever
left trailing without its duration line. -/
theorem write_durations_manifest_alternating (tf : String) (r0 : Row) (rest : List Row)
    (slowdown : ℚ) :
    (write_durations_lines tf (r0 :: rest) slowdown).length = 2 * rest.length ∧
    ∀ i : Nat, (h : i < rest.length) →
      (write_durations_lines tf (r0 :: rest) slowdown)[2 * i]? =
        some ("file '" ++ tf ++ "\\out." ++ format06 (rest.get ⟨i, h⟩).seqIndex ++ ".tiff'") ∧
      (write_durations_lines tf (r0 :: rest) slowdown)[2 * i + 1]? =
        some ("duration " ++ pyFormat08f (slowdown *
          (((rest.get ⟨i, h⟩).captureMicros -
            ((r0 :: rest).get ⟨i, by simp only [List.length_cons]; omega⟩).captureMicros : Int) : ℚ) /
          1000000)) ∧
      ((rest.get ⟨i, h⟩).seqIndex < 1000000 →
        (format06 (rest.get ⟨i, h⟩).seqIndex).length = 6) := by
  have hrw : write_durations_lines tf (r0 :: rest) slowdown =
      manifestLoop tf slowdown r0.captureMicros rest := rfl
  refine ⟨by rw [hrw]; exact manifestLoop_length tf slowdown r0.captureMicros rest, ?_⟩
  intro i h
  refine ⟨?_, ?_, fun hlt => format06_length _ hlt⟩
  · rw [hrw, manifestLoop_getElem?_even, List.getElem?_eq_getElem h]
    rfl
  · rw [hrw, manifestLoop_getElem?_odd, List.getElem?_eq_getElem h,
      prevMicros_getElem? r0 rest i h]
    rfl

/-- Witness for C2 at the log `[(7,100), (8,350)]`, slowdown 30, temp folder
`C:\temp`: two lines, the file line with the six-digit suffix `000008`, then
the duration line `0.007500`. -/
theorem write_durations_manifest_alternating_witness :
    (write_durations_lines "C:\\temp" [Row.mk 7 100, Row.mk 8 350] 30).length = 2 ∧
    (write_durations_lines "C:\\temp" [Row.mk 7 100, Row.mk 8 350] 30)[0]? =
      some "file 'C:\\temp\\out.000008.tiff'" ∧
    (write_durations_lines "C:\\temp" [Row.mk 7 100, Row.mk 8 350] 30)[1]? =
      some "duration 0.007500" ∧
    (format06 8).length = 6 := by
  obtain ⟨hlen, hidx⟩ :=
    write_durations_manifest_alternating "C:\\temp" (Row.mk 7 100) [Row.mk 8 350] 30
  obtain ⟨hf, hd, hl⟩ := hidx 0 (by decide)
  refine ⟨hlen, ?_, ?_, hl (by decide)⟩
  · have hf0 : (write_durations_lines "C:\\temp" [Row.mk 7 100, Row.mk 8 350] 30)[0]? =
        some ("file '" ++ "C:\\temp" ++ "\\out." ++ format06 8 ++ ".tiff'") := hf
    exact hf0.trans (by decide)
  · have hd0 : (write_durations_lines "C:\\temp" [Row.mk 7 100, Row.mk 8 350] 30)[1]? =
        some ("duration " ++ pyFormat08f (30 * (((350 : Int) - 100 : Int) : ℚ) / 1000000)) := hd
    have hr : pyRound (30 * (((350 : Int) - 100 : Int) : ℚ) / 1000000 * 1000000) = 7500 := by
      norm_num [pyRound]
    have hX : pyFormat08f (30 * (((350 : Int) - 100 : Int) : ℚ) / 1000000) = "0.007500" := by
      simp only [pyFormat08f, hr]
      decide
    rw [hd0, hX]
    rfl
